import Mathlib

/-!
Verification development for the code-index-mcp indexing core.

The Python sources under `src/code_index_mcp/indexing/` are shallowly
embedded below: pure helpers become Lean functions, mutable state becomes
explicit state passing, `sys.path` becomes a list threaded through the
module-locator functions, and exceptions become `Except` values.  The
host environment (current working directory, `sys.path`, interpreter
version, the module finder, the member introspector's outcome) is
abstracted into explicit environment records, so every definition stays
executable on concrete inputs.  The model is posix: `os.sep` is `"/"`,
so Python's `rel_path.replace(os.sep, '/')` is the identity and is
modelled as such.
-/

/-! ## Generic string/path helpers (models of `os.path` on posix)

Python strings are sequences of code points, so the string operations
are defined over `String.data : List Char` (rather than through the
opaque built-in `String` primitives), which also keeps every definition
evaluable inside the kernel. -/

/-- List-of-characters prefix test. -/
def chListPre : List Char → List Char → Bool
  | [], _ => true
  | _ :: _, [] => false
  | a :: as, b :: bs => a == b && chListPre as bs

/-- Python `s.startswith(pre)`. -/
def pyStartsWith (s pre : String) : Bool :=
  chListPre pre.data s.data

/-- Python `s.endswith(post)`. -/
def pyEndsWith (s post : String) : Bool :=
  chListPre post.data.reverse s.data.reverse

/-- Python's `sub in s` substring test. -/
def strContains (s sub : String) : Bool :=
  (List.range (s.data.length + 1)).any (fun i => chListPre sub.data (s.data.drop i))

/-- The left-to-right, non-overlapping scan of Python `str.split`: the
first argument is fuel (the input length suffices, since every step
consumes at least one character). -/
def chSplit (sep : List Char) : Nat → List Char → List Char → List (List Char)
  | _, [], acc => [acc.reverse]
  | 0, rest, acc => [acc.reverse ++ rest]
  | Nat.succ fu, c :: rest, acc =>
      if chListPre sep (c :: rest) then
        acc.reverse :: chSplit sep fu (List.drop (sep.length - 1) rest) []
      else chSplit sep fu rest (c :: acc)

/-- Python `s.split(sep)` for a non-empty separator. -/
def pySplitOn (s sep : String) : List String :=
  if sep.data.isEmpty then [s]
  else (chSplit sep.data s.data.length s.data []).map (fun l => String.mk l)

/-- Split a path on `/` and drop empty components. -/
def splitPath (s : String) : List String :=
  (pySplitOn s "/").filter (fun c => c ≠ "")

/-- `os.path.normpath` on the component list of an absolute path:
`.` is dropped, `..` pops one component (or is dropped at the root). -/
def normParts (l : List String) : List String :=
  l.foldl
    (fun acc c =>
      if c = "." then acc
      else if c = ".." then acc.dropLast
      else acc ++ [c]) []

/-- Re-assemble an absolute path from components. -/
def joinAbs (l : List String) : String :=
  "/" ++ String.intercalate "/" l

/-- `os.path.abspath` in the posix model: join with the working directory
when relative, then normalize. -/
def abspath (cwd p : String) : String :=
  joinAbs (normParts (splitPath (if pyStartsWith p "/" then p else cwd ++ "/" ++ p)))

/-- Drop the longest common prefix of two component lists, returning the
two remainders. -/
def dropCommon : List String → List String → (List String × List String)
  | a :: as, b :: bs => if a = b then dropCommon as bs else (a :: as, b :: bs)
  | as, bs => (as, bs)

/-- Join the two remainders produced by `dropCommon` into a relative
path: `..` for each leftover component of `start`, then the leftover
components of `p`. -/
def relJoin (rems : List String × List String) : String :=
  if List.replicate rems.2.length ".." ++ rems.1 = [] then "."
  else String.intercalate "/" (List.replicate rems.2.length ".." ++ rems.1)

/-- `os.path.relpath(p, start)` for two absolute paths: climb out of the
non-shared part of `start` with `..` and descend into `p`. -/
def os_relpath (p start : String) : String :=
  relJoin (dropCommon (normParts (splitPath p)) (normParts (splitPath start)))

/-- Python `s.split(sep, 1)`: split at the first occurrence only. -/
def splitOnce (s sep : String) : List String :=
  match pySplitOn s sep with
  | [] => [s]
  | [x] => [x]
  | x :: rest => [x, String.intercalate sep rest]

/-- `rel.replace(os.sep, '/')`: the identity in the posix model where
`os.sep = "/"`. -/
def replaceSep (s : String) : String := s

/-- `pathlib.Path(rel).parts` for a relative path: components with `.`
segments normalized away. -/
def pathParts (rel : String) : List String :=
  (splitPath rel).filter (fun c => c ≠ ".")

/-- `pathlib.Path(p).name`: the last path component (or `""`). -/
def pathName (p : String) : String :=
  (splitPath p).getLastD ""

/-- Insertion into a Python `set` modelled as an ordered list without
duplicates. -/
def setAdd (l : List String) (x : String) : List String :=
  if x ∈ l then l else l ++ [x]

/-! ## `SymbolIDNormalizer` (`utils/symbol_id_normalizer.py`) -/

/-- The host-environment inputs of the normalizer: working directory,
`sys.path`, and `sys.base_prefix`. -/
structure NormEnv where
  cwd : String
  sysPath : List String
  basePref : String
deriving Repr, DecidableEq

structure SymbolIDNormalizer where
  project_root : String
  venv_root : Option String
  stdlib_paths : List String
deriving Repr, DecidableEq

namespace SymbolIDNormalizer

/-- `_get_stdlib_paths`: `sys.path` entries that resolve outside any
`site-packages` directory and contain a `python*` component, plus
`sys.base_prefix / "lib"`.  The Python `set` is modelled as an ordered
deduplicated list. -/
def get_stdlib_paths (env : NormEnv) : List String :=
  let fromSys :=
    env.sysPath.foldl
      (fun acc pstr =>
        let path := abspath env.cwd pstr
        if !strContains path "site-packages" then
          if (splitPath path).any (fun part => pyStartsWith part "python") then
            setAdd acc path
          else acc
        else acc) []
  setAdd fromSys (abspath env.cwd env.basePref ++ "/lib")

/-- `__init__`: absolutize the roots and compute the stdlib path set. -/
def init (env : NormEnv) (project_root : String) (venv_root : Option String) :
    SymbolIDNormalizer :=
  { project_root := abspath env.cwd project_root
    venv_root := venv_root.map (abspath env.cwd)
    stdlib_paths := get_stdlib_paths env }

/-- `_is_in_stdlib`. -/
def is_in_stdlib (env : NormEnv) (n : SymbolIDNormalizer) (file_path : String) : Bool :=
  let abs_path := abspath env.cwd file_path
  n.stdlib_paths.any
    (fun sp => pyStartsWith abs_path sp && !strContains abs_path "site-packages")

/-- `_is_in_venv`. -/
def is_in_venv (env : NormEnv) (n : SymbolIDNormalizer) (file_path : String) : Bool :=
  match n.venv_root with
  | none => false
  | some vr => pyStartsWith (abspath env.cwd file_path) vr

/-- `_is_in_project`. -/
def is_in_project (env : NormEnv) (n : SymbolIDNormalizer) (file_path : String) : Bool :=
  pyStartsWith (abspath env.cwd file_path) n.project_root

/-- The inner loop of the stdlib branch of `normalize_path`: the first
`stdlib_paths` entry that is a prefix wins; the version-specific
`python*` directory segment is stripped from the relative part. -/
def stdlibLoop (abs_path : String) : List String → String
  | [] => "stdlib://" ++ pathName abs_path
  | sp :: rest =>
    if pyStartsWith abs_path sp then
      let rel_path := os_relpath abs_path sp
      let parts := pathParts rel_path
      let start_idx :=
        match parts.findIdx? (fun part => pyStartsWith part "python") with
        | some i => i + 1
        | none => 0
      "stdlib://" ++ String.intercalate "/" (parts.drop start_idx)
    else stdlibLoop abs_path rest

/-- The `venv://` branch of `normalize_path`: strip everything up
through `site-packages/` when present (first split only), else fall
back to the venv-root-relative path. -/
def venv_branch (n : SymbolIDNormalizer) (abs_path : String) : String :=
  (if strContains abs_path "site-packages" then
      match splitOnce abs_path ("site-packages" ++ "/") with
      | [_, pkg] => some ("venv://" ++ replaceSep pkg)
      | _ => none
    else none).getD
    ("venv://" ++ replaceSep (os_relpath abs_path (n.venv_root.getD "")))

/-- The body of `normalize_path` after `abs_path = os.path.abspath(file_path)`
(the binding is lifted into an argument). -/
def normalize_path_abs (env : NormEnv) (n : SymbolIDNormalizer) (abs_path : String) : String :=
  if n.is_in_project env abs_path then
    replaceSep (os_relpath abs_path n.project_root)
  else if n.is_in_venv env abs_path then
    venv_branch n abs_path
  else if n.is_in_stdlib env abs_path then
    stdlibLoop abs_path n.stdlib_paths
  else
    "external://" ++ replaceSep abs_path

/-- `normalize_path`: project-relative, `venv://`, `stdlib://` or
`external://`, checked in that order. -/
def normalize_path (env : NormEnv) (n : SymbolIDNormalizer) (file_path : String) : String :=
  normalize_path_abs env n (abspath env.cwd file_path)

/-- `create_symbol_id`. -/
def create_symbol_id (env : NormEnv) (n : SymbolIDNormalizer)
    (file_path symbol_name : String) : String :=
  normalize_path env n file_path ++ "::" ++ symbol_name

/-- The namespace a path is routed to by `normalize_path`'s branch
structure. -/
inductive Kind where
  | proj | venv | stdl | ext
deriving Repr, DecidableEq

/-- Which of the four rules `normalize_path` applies, mirroring its
`if/elif` chain exactly. -/
def normBranch (env : NormEnv) (n : SymbolIDNormalizer) (file_path : String) : Kind :=
  let abs_path := abspath env.cwd file_path
  if n.is_in_project env abs_path then .proj
  else if n.is_in_venv env abs_path then .venv
  else if n.is_in_stdlib env abs_path then .stdl
  else .ext

end SymbolIDNormalizer

/-! ## Module locator and introspector (`models/import_call_info.py`) -/

/-- The fields of an `importlib.machinery.ModuleSpec` the code reads. -/
structure PySpecData where
  name : String
  origin : Option String
deriving Repr, DecidableEq

/-- The three member tables produced by one introspection attempt.  The
Python tables map names to infos; only key membership and merging are
observed, so they are modelled by their ordered key lists. -/
structure MemberTables where
  classes : List String
  functions : List String
  methods : List String
deriving Repr, DecidableEq

/-- The wrapper class `ModuleSpec` of `import_call_info.py`: the located
spec plus the lazily filled member tables.  The `PYTHONPATH` bookkeeping
fields only matter on the live-execution path and are folded into the
introspection environment below. -/
structure ModuleSpecW where
  spec : PySpecData
  initialised : Bool := false
  classes : List String := []
  functions : List String := []
  methods : List String := []
  venv_pkgs : Option String := none
  project_root : Option String := none
  try_inspect : Bool := false
deriving Repr, DecidableEq

/-- The environment of `_getmembers`: what live execution
(`exec_module` + `inspect.getmembers`) and the static re-parse of the
module's own source would yield for a given origin — `none` meaning the
attempt raises/fails. -/
structure IntrospectEnv where
  execMembers : String → Option MemberTables
  parseMembers : String → Option MemberTables

/-- `ModuleSpec._getmembers`: the live-execution path (only when
`try_inspect` is set), then the static re-parse fallback; built-in and
frozen modules, and modules without an origin, are skipped and left
uninitialised; a failed re-parse sets `initialised = False`. -/
def ModuleSpecW.getmembers (env : IntrospectEnv) (sp : ModuleSpecW) : ModuleSpecW :=
  let afterExec : Option ModuleSpecW :=
    if sp.try_inspect then
      match env.execMembers sp.spec.name with
      | some t =>
          some { sp with classes := t.classes, functions := t.functions,
                         methods := t.methods, initialised := true }
      | none => none
    else none
  match afterExec with
  | some sp' => sp'
  | none =>
    match sp.spec.origin with
    | none => sp
    | some o =>
      if strContains o "built-in" || strContains o "frozen" then sp
      else
        match env.parseMembers o with
        | some t =>
            { sp with classes := t.classes, functions := t.functions,
                      methods := t.methods, initialised := true }
        | none => { sp with initialised := false }

/-- `os.path.join(root, p)` for the two-argument uses in this code. -/
def pathJoin (root p : String) : String :=
  if pyStartsWith p "/" then p else root ++ "/" ++ p

/-- `ModuleSpec.try_get_symbol_type`: split a `path::name` id, lazily
run `_getmembers` when the spec is not initialised, then look the bare
name, the full id, and the project-root-rebased absolute id up in the
three tables in order.  Returns the kind (or `none`), the possibly
mutated spec, and whether `_getmembers` was invoked from here.  The
`getD ""` for `project_root` is a modelling simplification: a spec with
`project_root = None` would make `os.path.join(None, symbol_path)`
raise before the `_getmembers` re-run; every spec the build actually
constructs (via `_get_spec`) carries the project path, and the claims
are only instantiated at such specs. -/
def ModuleSpecW.try_get_symbol_type (env : IntrospectEnv) (cwd : String)
    (sp : ModuleSpecW) (symbol_id : String) :
    Option String × ModuleSpecW × Bool :=
  let parts := splitOnce symbol_id "::"
  let symbol_part := match parts with
    | [_, p] => p
    | _ => symbol_id
  let abs_id : Option String := match parts with
    | [symbol_path, p] =>
        some (abspath cwd (pathJoin (sp.project_root.getD "") symbol_path) ++ "::" ++ p)
    | _ => none
  let (sp1, ran) := if ¬ sp.initialised then (sp.getmembers env, true) else (sp, false)
  if ¬ sp1.initialised then
    -- `raise ValueError("Not initialised.")`, caught below: return None
    (none, sp1, ran)
  else
    let mem := fun (table : List String) =>
      table.contains symbol_part || table.contains symbol_id ||
        (match abs_id with | some a => table.contains a | none => false)
    if mem sp1.classes then (some "class", sp1, ran)
    else if mem sp1.functions then (some "function", sp1, ran)
    else if mem sp1.methods then (some "method", sp1, ran)
    else (none, sp1, ran)

/-- `sys.path`, the process-wide search-path state mutated by the
module locator. -/
structure SysState where
  path : List String
deriving Repr, DecidableEq

/-- Remove the first occurrence of an element (Python `list.remove`). -/
def removeFirst : List String → String → List String
  | [], _ => []
  | x :: xs, a => if x = a then xs else x :: removeFirst xs a

/-- `ImportCallInfo.get_venv_site_packages` on posix: the version comes
from a `.python-version` file when present and non-empty, else from the
interpreter (`sys.version`), both supplied as environment inputs. -/
def get_venv_site_packages (project_root : String) (venv_root : Option String)
    (pyVersionFile : Option String) (sysVersion : String) : String :=
  let venv_dir := venv_root.getD (project_root ++ "/" ++ ".venv")
  let python_version :=
    match pyVersionFile with
    | some v => if v = "" then sysVersion else v
    | none => sysVersion
  venv_dir ++ "/lib/python" ++ python_version ++ "/site-packages"

/-- `ImportCallInfo._setup_paths`: append the project root, compute the
venv site-packages directory, append it too, and return it. -/
def setup_paths (project_root : String) (venv_root : Option String)
    (pyVersionFile : Option String) (sysVersion : String)
    (st : SysState) : String × SysState :=
  let st1 : SysState := { path := st.path ++ [project_root] }
  let venv_pkgs := get_venv_site_packages project_root venv_root pyVersionFile sysVersion
  (venv_pkgs, { path := st1.path ++ [venv_pkgs] })

/-- `ImportCallInfo._cleanup_paths`: remove each argument from
`sys.path` if present (first occurrence). -/
def cleanup_paths (args : List String) (st : SysState) : SysState :=
  args.foldl
    (fun s a => if a ∈ s.path then { path := removeFirst s.path a } else s) st

/-- The three things one `find_spec_function` call can do: raise, return
no spec, or return a spec. -/
inductive FindOutcome where
  | raises
  | notFound
  | found (sp : PySpecData)
deriving Repr, DecidableEq

/-- `ImportCallInfo._get_spec`: set up the search path, run the
resolver, and (on the raising and success paths) clean up again.  The
`not _spec` early return leaves the two appended entries behind —
transcribed exactly as in the source. -/
def ImportCallInfo_get_spec (project_root : String) (venv_root : Option String)
    (pyVersionFile : Option String) (sysVersion : String)
    (outcome : FindOutcome) (st : SysState) :
    Option ModuleSpecW × SysState :=
  let (venv_pkgs, st1) := setup_paths project_root venv_root pyVersionFile sysVersion st
  match outcome with
  | .raises => (none, cleanup_paths [project_root, venv_pkgs] st1)
  | .notFound => (none, st1)
  | .found sp =>
      (some { spec := sp, venv_pkgs := some venv_pkgs,
              project_root := some project_root },
       cleanup_paths [project_root, venv_pkgs] st1)

/-! ## The AST symbol extractor (`strategies/python_strategy.py`)

The subset of the Python AST that the visitor handles specially is
embedded as a deep syntax type; all other node kinds only matter through
`generic_visit`, which visits their children, and are represented by the
constructs below.  `ast.NodeVisitor.visit` dispatch is the `pyVisit`
function further down. -/

inductive PyExpr where
  /-- `ast.Name` -/
  | name (id : String)
  /-- `ast.Attribute` (receiver expression, attribute name) -/
  | attr (value : PyExpr) (attrName : String)
  /-- `ast.Call` (children visited in field order: func, args) -/
  | call (func : PyExpr) (args : List PyExpr)
  /-- any childless expression (constants, ...); the tag stands in for
  the CPython object identity `id(node)` used as a last-resort name -/
  | const (tag : Nat)

inductive PyStmt where
  /-- `ast.FunctionDef`; `args` are the plain positional argument names
  (the only part `_extract_function_signature` reads in this model) -/
  | functionDef (fname : String) (args : List String) (body : List PyStmt)
      (decorators : List PyExpr) (docstring : Option String) (lineno : Int)
  /-- `ast.ClassDef` -/
  | classDef (cname : String) (body : List PyStmt)
      (docstring : Option String) (lineno : Int)
  /-- `ast.Import` (alias names) -/
  | importS (names : List String)
  /-- `ast.ImportFrom` -/
  | importFrom (module : Option String) (names : List String)
  /-- `ast.Expr` statement wrapping an expression -/
  | exprStmt (e : PyExpr)
  /-- `ast.Pass` (stands for any childless statement) -/
  | passS

/-- Modelled from the spec: `SymbolInfo` (`models/symbol_info.py` is not
part of the provided sources; only its constructor calls and attribute
accesses are).  Per §3 of the spec a symbol carries kind, defining file,
line (−1 for placeholders), signature, docstring, the `called_by` list,
the set of observed stack depths, and the decorator identifier list;
fields not passed at a construction site default to empty.  `type` is
`Option String` because placeholders are created with kind `None`.
`stack_levels` is a Python `set`, modelled as an insertion-ordered
duplicate-free list. -/
structure SymbolInfo where
  type : Option String
  file : String
  line : Int
  signature : Option String := none
  docstring : Option String := none
  called_by : List String := []
  stack_levels : List Nat := []
  decorator_list : List String := []
deriving Repr, DecidableEq

/-- `ImportCallInfo` (the dataclass): its `called_symbol_info` field
aliases the `SymbolInfo` stored in the visitor's `import_symbols` map
under `called_symbol_id` (it is the same Python object), so the model
keeps the id and reads the info through that map. -/
structure ImportCallInfoR where
  import_spec : ModuleSpecW
  import_relative_path : String
  called_symbol_id : String
deriving Repr, DecidableEq

/-- Python `dict` lookup on an insertion-ordered association list. -/
def aget {α : Type} : List (String × α) → String → Option α
  | [], _ => none
  | (k', v) :: rest, k => if k' = k then some v else aget rest k

/-- Python `dict` assignment: update in place (keeping the key's
position) or append. -/
def aset {α : Type} : List (String × α) → String → α → List (String × α)
  | [], k, v => [(k, v)]
  | (k', v') :: rest, k, v =>
      if k' = k then (k, v) :: rest else (k', v') :: aset rest k v

/-- `stack_levels.add(n)` (Python `set.add`). -/
def addLevel (l : List Nat) (n : Nat) : List Nat :=
  if n ∈ l then l else l ++ [n]

/-- The guarded `called_by` append used at the call-recording sites:
`if caller not in called_by: called_by.append(caller)`. -/
def appendCallerIfAbsent (called_by : List String) (caller : String) : List String :=
  if caller ∈ called_by then called_by else called_by ++ [caller]

/-- The mutable state of `SinglePassVisitor`. -/
structure VState where
  symbols : List (String × SymbolInfo) := []
  functions : List String := []
  classes : List String := []
  imports : List String := []
  imports_u : List String := []
  from_imports : List (String × (String × String)) := []
  import_calls : List (String × ImportCallInfoR) := []
  import_call_info_lookup : List (String × ImportCallInfoR) := []
  import_symbols : List (String × SymbolInfo) := []
  current_function_stack : List String := []
  current_class : Option String := none
  symbol_lookup : List (String × String) := []
  decorator_lookup : List (String × List PyExpr) := []
  decorations : List (String × List String) := []

/-- The per-parse configuration of the visitor plus the host
environment: `finder` models the net result of
`ImportCallInfo.get_import_spec`'s three `find_spec` strategies for a
fully qualified import name (the strategies themselves call into
`importlib`, which is outside the program). -/
structure VConfig where
  file_path : String
  project_dir : String
  cwd : String
  explore_imports : Bool
  finder : String → Option PySpecData

/-- `_create_symbol_id` with `normalizer=None`, which is how
`Neo4jIndexBuilder.build_index` invokes the strategy (it sets
`self.normalizer = None` and does not pass one to `parse_file`). -/
def create_symbol_id_fallback (file_path symbol_name : String) : String :=
  file_path ++ "::" ++ symbol_name

/-- Replace a symbol's record in the `symbols` table (the Python code
mutates the shared `SymbolInfo` object in place). -/
def VState.setSym (s : VState) (sid : String) (si : SymbolInfo) : VState :=
  { s with symbols := aset s.symbols sid si }

/-- `try_get_func_name_from_expr`. -/
def try_get_func_name_from_expr (node : PyExpr) : String :=
  let func := match node with
    | .call f _ => f
    | e => e
  match func with
  | .name id => id
  | .attr _ a => a
  | .call _ _ => "<id>"   -- `str(id(func))` fallback, unreachable here
  | .const tag => toString tag

/-- `get_matching_imports`: Python `str.endswith` against the tuple
`(called,)`, or `(called, "." + called.split(".")[-1])` when the called
name is dotted.  Note this is a plain character-suffix test. -/
def get_matching_imports (imports : List String) (called_function : String) : List String :=
  let dotted := strContains called_function "."
  let lastComp := (pySplitOn called_function ".").getLastD ""
  imports.filter
    (fun i => pyEndsWith i called_function || (dotted && pyEndsWith i ("." ++ lastComp)))

/-- `ImportCallInfo.get_import_spec` as seen from the visitor: try the
finder on the name itself, and if that fails and a parent module (from a
`from X import Y` record) is known, fall back to locating the parent. -/
def findSpecNet (cfg : VConfig) (from_imports : List (String × (String × String)))
    (called_import : String) : Option PySpecData :=
  match cfg.finder called_import with
  | some sp => some sp
  | none =>
      match aget from_imports called_import with
      | some (parentModule, _) => cfg.finder parentModule
      | none => none

/-- `try_get_import_spec`: the dict comprehension keeping the imports
the finder resolves. -/
def try_get_import_spec (cfg : VConfig) (from_imports : List (String × (String × String)))
    (matching_imports : List String) : List (String × ModuleSpecW) :=
  matching_imports.foldl
    (fun d called_import =>
      match findSpecNet cfg from_imports called_import with
      | some sp =>
          aset d called_import
            { spec := sp,
              venv_pkgs := none,
              project_root := some cfg.project_dir }
      | none => d) []

/-- `call_info_from_import`: create or update the placeholder
`SymbolInfo` for the import-derived symbol id, then create the
`ImportCallInfo` record if this id has none yet. -/
def call_info_from_import (called_function : String)
    (caller_function : Option String) (import_spec : ModuleSpecW)
    (relative_path import_symbol_id : String) (s : VState) : VState :=
  let newLevels := fun (info : SymbolInfo) =>
    addLevel info.stack_levels s.current_function_stack.length
  let s1 :=
    match aget s.import_symbols import_symbol_id with
    | some info =>
        let info1 := match caller_function with
          | some _ => { info with stack_levels := newLevels info }
          | none => info
        let info2 := match caller_function with
          | some cf => { info1 with called_by := appendCallerIfAbsent info1.called_by cf }
          | none => info1
        { s with import_symbols := aset s.import_symbols import_symbol_id info2 }
    | none =>
        let info : SymbolInfo :=
          { type := none
            file := relative_path
            line := -1
            called_by := match caller_function with | some cf => [cf] | none => [] }
        let info1 := match caller_function with
          | some _ => { info with stack_levels := newLevels info }
          | none => info
        { s with import_symbols := aset s.import_symbols import_symbol_id info1 }
  match aget s1.import_calls import_symbol_id with
  | some _ => s1
  | none =>
      let ici : ImportCallInfoR :=
        { import_spec := import_spec
          import_relative_path := relative_path
          called_symbol_id := import_symbol_id }
      { s1 with
        import_calls := aset s1.import_calls import_symbol_id ici
        import_call_info_lookup := aset s1.import_call_info_lookup called_function ici }

/-- `try_as_import_call`.  The result is `Except`: `.error s'` models the
`KeyError` raised by `import_specs[matching_imports[0]]` when the first
matching import's spec could not be located but a later one could — the
state at the raise is carried along (callers either catch it or let it
abort the parse). -/
def try_as_import_call (cfg : VConfig) (called_function : String)
    (caller_function : Option String) (s : VState) : Except VState VState :=
  if ¬ cfg.explore_imports then .ok s
  else
    -- existing info: add the caller if new, and return
    match aget s.import_call_info_lookup called_function, caller_function with
    | some import_call_info, some cf =>
        (match aget s.import_symbols import_call_info.called_symbol_id with
         | some info =>
             let lv := addLevel info.stack_levels s.current_function_stack.length
             let info1 := { info with stack_levels := lv }
             let info2 := { info1 with called_by := appendCallerIfAbsent info1.called_by cf }
             let tbl := aset s.import_symbols import_call_info.called_symbol_id info2
             .ok { s with import_symbols := tbl }
         | none => .ok s)   -- cannot occur: the record's info is stored under its id
    | _, _ =>
      let matching_imports := get_matching_imports s.imports called_function
      if caller_function.isSome ∧ matching_imports = [] then .ok s
      else
        let import_specs := try_get_import_spec cfg s.from_imports matching_imports
        if import_specs = [] then .ok s
        else
          match matching_imports with
          | [] => .ok s   -- unreachable: specs nonempty needs a matching import
          | mi0 :: _ =>
            match aget import_specs mi0 with
            | none => .error s   -- KeyError: first match had no spec
            | some import_spec =>
              let relative_path :=
                match import_spec.spec.origin with
                | some origin => os_relpath (abspath cfg.cwd origin) (abspath cfg.cwd cfg.project_dir)
                | none => os_relpath (abspath cfg.cwd cfg.file_path) (abspath cfg.cwd cfg.project_dir)
              let import_symbol_id := create_symbol_id_fallback relative_path called_function
              .ok (call_info_from_import called_function caller_function import_spec
                     relative_path import_symbol_id s)

/-- `extract_decorators`: record each decorator expression, give
unresolvable decorators a chance to resolve as import calls, then append
the decorator's identifier to the decorated symbol's `decorator_list`
and — unconditionally — to its `called_by`. -/
def extract_decorators (cfg : VConfig) (decorators : List PyExpr)
    (symbol_id : String) (s : VState) : Except VState VState :=
  decorators.foldlM
    (fun s dec => do
      let decorator_func_name := try_get_func_name_from_expr dec
      let s := { s with
        decorator_lookup :=
          aset s.decorator_lookup decorator_func_name
            ((aget s.decorator_lookup decorator_func_name).getD [] ++ [dec])
        decorations :=
          aset s.decorations decorator_func_name
            ((aget s.decorations decorator_func_name).getD [] ++ [symbol_id]) }
      let s ←
        if get_matching_imports s.imports decorator_func_name ≠ [] then
          try_as_import_call cfg decorator_func_name none s
        else pure s
      let decorator_symbol_id :=
        match aget s.import_call_info_lookup decorator_func_name with
        | some import_call_info => import_call_info.called_symbol_id
        | none =>
          match aget s.symbol_lookup decorator_func_name with
          | some sid => sid
          | none => decorator_func_name
      match aget s.symbols symbol_id with
      | some symbol_info =>
          pure (s.setSym symbol_id
            { symbol_info with
              decorator_list := symbol_info.decorator_list ++ [decorator_symbol_id]
              called_by := symbol_info.called_by ++ [decorator_symbol_id] })
      | none => pure s)   -- cannot occur: the decorated symbol was just stored
    s

/-- `si.type in ["function", "method"]`. -/
def isFuncOrMethod : Option String → Bool
  | some "function" => true
  | some "method" => true
  | _ => false

/-- The suffix-match loop of `visit_Call`: walk `symbol_lookup` in
insertion order; at the first `*.calledName` entry whose symbol is a
function or method, record the depth, append the caller if absent, and
return.  The `Bool` says whether the loop returned (hit). -/
def suffixScan (caller called_function : String) :
    List (String × String) → VState → VState × Bool
  | [], s => (s, false)
  | (nm, symbol_id) :: rest, s =>
    if pyEndsWith nm ("." ++ called_function) then
      match aget s.symbols symbol_id with
      | none => (s, true)   -- KeyError, caught by `_visit_call`'s handler
      | some symbol_info =>
        if isFuncOrMethod symbol_info.type then
          let lv := addLevel symbol_info.stack_levels s.current_function_stack.length
          let si1 := { symbol_info with stack_levels := lv }
          let si2 := { si1 with called_by := appendCallerIfAbsent si1.called_by caller }
          (s.setSym symbol_id si2, true)
        else suffixScan caller called_function rest s
    else suffixScan caller called_function rest s

/-- The body of `_visit_call` inside `visit_Call`, which is wrapped in a
catch-all `except` — so this function is total and exceptions raised by
`try_as_import_call` are swallowed, keeping the state reached so far.
Order: extract the called name; with no open function, go straight
to import-call resolution; otherwise try the exact symbol-table match (the
`return` sits inside `if caller not in called_by`, so a repeated caller
falls through), then the suffix scan, then import-call resolution. -/
def visitCallCore (cfg : VConfig) (func : PyExpr) (s : VState) : VState :=
  let called? : Option String :=
    match func with
    | .name id => some id
    | .attr _ a => some a
    | _ => none
  match called? with
  | none => s
  | some called_function =>
    match s.current_function_stack.getLast? with
    | none =>
        (match try_as_import_call cfg called_function none s with
         | .ok s' => s'
         | .error s' => s')
    | some caller_function =>
      -- exact-name match
      let exact : VState × Bool :=
        match aget s.symbol_lookup called_function with
        | none => (s, false)
        | some symbol_id =>
          match aget s.symbols symbol_id with
          | none => (s, true)   -- KeyError, caught
          | some symbol_info =>
            if isFuncOrMethod symbol_info.type then
              let lv := addLevel symbol_info.stack_levels s.current_function_stack.length
              let si1 := { symbol_info with stack_levels := lv }
              if caller_function ∈ si1.called_by then
                (s.setSym symbol_id si1, false)   -- no `return`: falls through
              else
                (s.setSym symbol_id { si1 with called_by := si1.called_by ++ [caller_function] },
                 true)
            else (s, false)
      match exact with
      | (s1, true) => s1
      | (s1, false) =>
        match suffixScan caller_function called_function s1.symbol_lookup s1 with
        | (s2, true) => s2
        | (s2, false) =>
            (match try_as_import_call cfg called_function (some caller_function) s2 with
             | .ok s3 => s3
             | .error s3 => s3)

/-- `_extract_function_signature` (positional arguments only in this
AST model). -/
def extract_function_signature (fname : String) (args : List String) : String :=
  "def " ++ fname ++ "(" ++ String.intercalate ", " args ++ "):"

/-- One pending unit of traversal work for the visitor: a statement, a
statement list, a class body (the special loop of `visit_ClassDef`), an
expression, or an expression list. -/
inductive VisitTask where
  | stmt (st : PyStmt)
  | stmts (l : List PyStmt)
  | classBody (l : List PyStmt)
  | methodOf (class_name : String) (st : PyStmt)
  | expr (e : PyExpr)
  | exprs (l : List PyExpr)

/-- `ast.NodeVisitor.visit` dispatch for `SinglePassVisitor`, with all
visitor methods inlined as task cases.  The `Nat` argument is recursion
fuel, decremented on every recursive step; any value at least the size
of the syntax tree is enough, and `parse_file` below supplies one (the
`fuel = 0` clause is unreachable then and returns the state unchanged).
Errors (`.error`) propagate exactly like Python exceptions: only
`visit_Call`'s catch-all handler (inside `visitCallCore`) and the
top-level `parse_file` stop them. -/
def pyVisit (cfg : VConfig) : Nat → VisitTask → VState → Except VState VState
  | 0, _, s => .ok s
  | Nat.succ fuel, t, s =>
    match t with
    | .stmts [] => .ok s
    | .stmts (st :: rest) => do
        let s1 ← pyVisit cfg fuel (.stmt st) s
        pyVisit cfg fuel (.stmts rest) s1
    | .exprs [] => .ok s
    | .exprs (e :: rest) => do
        let s1 ← pyVisit cfg fuel (.expr e) s
        pyVisit cfg fuel (.exprs rest) s1
    -- `visit_ClassDef`'s body loop: direct FunctionDef children become
    -- methods, everything else is dispatched through `visit`
    | .classBody [] => .ok s
    | .classBody (child :: rest) => do
        let s1 ←
          match child, s.current_class with
          | PyStmt.functionDef f a b d ds ln, some cls =>
              pyVisit cfg fuel (.methodOf cls (.functionDef f a b d ds ln)) s
          | _, _ => pyVisit cfg fuel (.stmt child) s
        pyVisit cfg fuel (.classBody rest) s1
    -- `_handle_method`
    | .methodOf class_name (.functionDef fname args body decorators docstring lineno) => do
        let method_name := class_name ++ "." ++ fname
        let method_symbol_id := create_symbol_id_fallback cfg.file_path method_name
        let method_signature := extract_function_signature fname args
        let called_by :=
          match s.current_function_stack.getLast? with
          | some caller => [caller]
          | none => []
        let symbol_info : SymbolInfo :=
          { type := some "method"
            file := cfg.file_path
            line := lineno
            signature := some method_signature
            docstring := docstring
            called_by := called_by
            stack_levels := [s.current_function_stack.length + decorators.length] }
        let s := { s with
          symbols := aset s.symbols method_symbol_id symbol_info
          symbol_lookup :=
            aset (aset s.symbol_lookup method_name method_symbol_id) fname method_symbol_id }
        let s ← extract_decorators cfg decorators method_symbol_id s
        let s := { s with functions := s.functions ++ [method_name] }
        let function_id := cfg.file_path ++ "::" ++ method_name
        let s := { s with current_function_stack := s.current_function_stack ++ [function_id] }
        let s ← pyVisit cfg fuel (.stmts body) s
        pure { s with current_function_stack := s.current_function_stack.dropLast }
    | .methodOf _ _ => .ok s   -- only FunctionDef nodes are routed here
    | .stmt st =>
      match st with
      -- `visit_FunctionDef`
      | .functionDef fname args body decorators docstring lineno =>
        if s.current_class.isSome then .ok s
        else do
          let symbol_id := create_symbol_id_fallback cfg.file_path fname
          let signature := extract_function_signature fname args
          let called_by :=
            match s.current_function_stack.getLast? with
            | some caller => [caller]
            | none => []
          let symbol_info : SymbolInfo :=
            { type := some "function"
              file := cfg.file_path
              line := lineno
              signature := some signature
              docstring := docstring
              called_by := called_by
              stack_levels := [s.current_function_stack.length + decorators.length] }
          let s := { s with
            symbols := aset s.symbols symbol_id symbol_info
            symbol_lookup := aset s.symbol_lookup fname symbol_id }
          let s ← extract_decorators cfg decorators symbol_id s
          let s := { s with functions := s.functions ++ [fname] }
          let function_id := cfg.file_path ++ "::" ++ fname
          let s := { s with current_function_stack := s.current_function_stack ++ [function_id] }
          -- `generic_visit(node)`: children in AST field order
          -- (args carry no visitable nodes here, then body, then decorators)
          let s ← pyVisit cfg fuel (.stmts body) s
          let s ← pyVisit cfg fuel (.exprs decorators) s
          pure { s with current_function_stack := s.current_function_stack.dropLast }
      -- `visit_ClassDef`
      | .classDef cname body docstring lineno => do
          let symbol_id := create_symbol_id_fallback cfg.file_path cname
          let symbol_info : SymbolInfo :=
            { type := some "class"
              file := cfg.file_path
              line := lineno
              docstring := docstring }
          let s := { s with
            symbols := aset s.symbols symbol_id symbol_info
            symbol_lookup := aset s.symbol_lookup cname symbol_id
            classes := s.classes ++ [cname] }
          let old_class := s.current_class
          let s := { s with current_class := some cname }
          let s ← pyVisit cfg fuel (.classBody body) s
          pure { s with current_class := old_class }
      -- `visit_Import`
      | .importS names =>
          .ok { s with
            imports := s.imports ++ names
            imports_u := s.imports_u ++ names }
      -- `visit_ImportFrom`
      | .importFrom module names =>
          match module with
          | some m =>
              .ok (names.foldl
                (fun s aliasName =>
                  { s with
                    imports := s.imports ++ [m ++ "." ++ aliasName]
                    from_imports := aset s.from_imports (m ++ "." ++ aliasName) (m, aliasName) })
                s)
          | none => .ok s
      | .exprStmt e => pyVisit cfg fuel (.expr e) s
      | .passS => .ok s
    | .expr e =>
      match e with
      -- `visit_Call`, then `generic_visit` over func and args
      | .call func args => do
          let s1 := visitCallCore cfg func s
          let s2 ← pyVisit cfg fuel (.expr func) s1
          pyVisit cfg fuel (.exprs args) s2
      | .attr value _ => pyVisit cfg fuel (.expr value) s
      | .name _ => .ok s
      | .const _ => .ok s


/-- `FileInfo` (`models/file_info.py`), restricted to the fields the
Python strategy fills. -/
structure FileInfo where
  file_path : String
  language : String
  line_count : Nat
  functions : List String
  classes : List String
  imports : List String
  import_calls : List (String × ImportCallInfoR)
  import_symbols : List (String × SymbolInfo)
  import_call_info_lookup : List (String × ImportCallInfoR)
deriving Repr, DecidableEq

/-- `PythonParsingStrategy.parse_file` given an already-parsed tree
(`ast.parse` itself is the host parser; a file with a syntax error
reaches the `except` branch, which this models by the `.error` case:
the containers keep whatever was filled in before the failure).  `fuel`
is the recursion budget for the traversal; any value at least the size
of the tree is enough and leaves the `fuel = 0` clause unreachable. -/
def parse_file (cfg : VConfig) (fuel : Nat) (stmts : List PyStmt) (line_count : Nat) :
    (List (String × SymbolInfo)) × FileInfo :=
  let sFinal :=
    match pyVisit cfg fuel (.stmts stmts) {} with
    | .ok s => s
    | .error s => s
  (sFinal.symbols,
   { file_path := cfg.file_path
     language := "python"
     line_count := line_count
     functions := sFinal.functions
     classes := sFinal.classes
     imports := sFinal.imports
     import_calls := sFinal.import_calls
     import_symbols := sFinal.import_symbols
     import_call_info_lookup := sFinal.import_call_info_lookup })

/-! ## The Cross-File Call Linker
(`Neo4jIndexBuilder.build_index`, lines 245–264)

After all files are parsed, the builder walks the accumulated
pending import calls.  Per pending call it either introspects the module (first
time its origin is seen) and merges the member tables into the shared
`m`/`c`/`f` dicts, or assigns the shared dicts to the spec's tables; it
then finalizes the placeholder's kind via `try_get_symbol_type`,
defaulting to `"function"`.

Python's dicts alias: `spec._classes = c` shares the dict object, and a
later `_getmembers` rebinds `self._classes` to a fresh dict, so the
value-passing model below is observationally equivalent for this loop.
The linker state carries a ghost counter of `_getmembers` invocations
per origin; it influences nothing and only observes the
single-introspection property. -/

/-- One pending import call as the linker sees it: the wrapper spec,
the tentative callee id, and the placeholder symbol info. -/
structure PendingLink where
  spec : ModuleSpecW
  called_symbol_id : String
  info : SymbolInfo
deriving Repr, DecidableEq

/-- Merge one table into a shared Python dict (`dict.update` on the key
lists: existing keys keep their position, new ones are appended). -/
def dictUpdate (base incoming : List String) : List String :=
  incoming.foldl setAdd base

/-- The linker's loop state: the `parsed_modules` set, the shared
`m`, `c`, `f` member tables, and the ghost per-origin `_getmembers`
invocation counter. -/
structure LinkState where
  parsed_modules : List (Option String) := []
  m : List String := []
  c : List String := []
  f : List String := []
  counts : List (String × Nat) := []
deriving Repr, DecidableEq

/-- Record one `_getmembers` invocation on a spec (ghost). -/
def bumpCount (st : LinkState) (sp : ModuleSpecW) : LinkState :=
  match sp.spec.origin with
  | some o => { st with counts := aset st.counts o ((aget st.counts o).getD 0 + 1) }
  | none => st

/-- The `if/else` head of the linker loop body: introspect-and-merge on
a first-seen origin, or hand the spec the shared tables on a repeat
(without touching its `initialised` flag). -/
def linkSpecSel (env : IntrospectEnv) (st : LinkState) (pc : PendingLink) :
    ModuleSpecW × LinkState :=
  let module_path := pc.spec.spec.origin
  if module_path ∉ st.parsed_modules then
    let sp' := pc.spec.getmembers env
    let st' := bumpCount st pc.spec
    (sp',
     { st' with
       m := dictUpdate st'.m sp'.methods
       c := dictUpdate st'.c sp'.classes
       f := dictUpdate st'.f sp'.functions
       parsed_modules := st'.parsed_modules ++ [module_path] })
  else
    ({ pc.spec with classes := st.c, functions := st.f, methods := st.m }, st)

/-- The body of the linker loop for one pending import call. -/
def linkStep (env : IntrospectEnv) (cwd : String) (st : LinkState)
    (pc : PendingLink) : LinkState × PendingLink :=
  let sel := linkSpecSel env st pc
  let res := sel.1.try_get_symbol_type env cwd pc.called_symbol_id
  let st2 := if res.2.2 then bumpCount sel.2 res.2.1 else sel.2
  let info' := { pc.info with type := some (res.1.getD "function") }
  (st2, { spec := res.2.1, called_symbol_id := pc.called_symbol_id, info := info' })

/-- The whole linking pass: the pending calls of all files in
iteration order. -/
def linkAll (env : IntrospectEnv) (cwd : String) (st : LinkState) :
    List PendingLink → LinkState × List PendingLink
  | [] => (st, [])
  | pc :: rest =>
    let (st1, pc') := linkStep env cwd st pc
    let (st2, rest') := linkAll env cwd st1 rest
    (st2, pc' :: rest')

/-! ## The build orchestrator (`Neo4jIndexBuilder`, error structure)

`build_index` (lines 161–307) wraps its whole body in
`try: ... except Exception: return False`, and wraps each file's
read/parse/write block in an inner `try: ... except: continue`; the
linking loop, clustering and metadata store sit under the outer handler
only.  The constructor (lines 52–116) probes the store with `RETURN 1`
and re-raises on failure, before any index write.  The graph store and
file system are external, so each operation is abstracted to a flag
saying whether it raises. -/

/-- The one (opaque) exception of the error model. -/
inductive PyExc where
  | exc
deriving Repr, DecidableEq

/-- Whether each store/file operation of one file's processing block
raises: reading the file, parsing it, writing the file node, writing
its symbol nodes. -/
structure FileOps where
  readOk : Bool
  parseOk : Bool
  addFileOk : Bool
  addSymbolsOk : Bool
deriving Repr, DecidableEq

/-- Whether each phase of the build raises. -/
structure BuildEnv where
  clearOk : Bool
  schemaOk : Bool
  files : List FileOps
  linkOk : Bool
  run_clustering : Bool
  clusterOk : Bool
  metadataOk : Bool
deriving Repr, DecidableEq

/-- `if ok then proceed else raise`. -/
def opE (ok : Bool) : Except PyExc Unit :=
  if ok then .ok () else .error .exc

/-- The inner per-file `try/except` block: any failure is caught,
logged, and the loop continues with the next file. -/
def processFiles : List FileOps → Except PyExc Unit
  | [] => .ok ()
  | fo :: rest =>
      match (do opE fo.readOk; opE fo.parseOk; opE fo.addFileOk; opE fo.addSymbolsOk :
             Except PyExc Unit) with
      | _ => processFiles rest   -- `except Exception: logger.exception(...)`, continue

/-- The body of `build_index`'s outer `try`. -/
def build_body (env : BuildEnv) : Except PyExc Unit := do
  opE env.clearOk
  opE env.schemaOk
  processFiles env.files
  opE env.linkOk
  if env.run_clustering then opE env.clusterOk else pure ()
  opE env.metadataOk

/-- `build_index`: the outer `try/except` returning `False` on any
exception and `True` otherwise.  The result type `Except PyExc Bool`
makes "an exception escapes" expressible: it never happens. -/
def build_index (env : BuildEnv) : Except PyExc Bool :=
  match build_body env with
  | .ok () => .ok true
  | .error _ => .ok false

/-- `Neo4jIndexBuilder.__init__`, reduced to its store-connectivity
probe: `session.run("RETURN 1")` inside `try/except` with a re-`raise`.
The input-validation `ValueError`s on malformed constructor arguments
are prior to this and outside the build failure taxonomy modelled
here.  The constructor performs no index writes. -/
def builderInit (connectivityOk : Bool) : Except PyExc Unit :=
  if connectivityOk then .ok () else .error .exc

/-! ## Refinement comparison and concrete example inputs -/

/-- Modelled from the spec: the set of plausible import names as §4.4
step 4 words it — "matching the called name against this file's
recorded import strings (either the exact import or one ending in
`.calledName`)".  Stated only to compare with `get_matching_imports`
above, which is translated from the source. -/
def spec_matching_imports (imports : List String) (called_function : String) : List String :=
  imports.filter (fun i => i = called_function || pyEndsWith i ("." ++ called_function))

/-- A visitor configuration whose module finder resolves nothing
(no import in the example files can be located, as in a project
without dependencies). -/
def cfgNone : VConfig :=
  { file_path := "t.py", project_dir := "/proj", cwd := "/proj",
    explore_imports := true, finder := fun _ => none }

/-- `@d` twice on one function: `@d\n@d\ndef f(): pass`. -/
def exDupDecorator : List PyStmt :=
  [.functionDef "f" [] [.passS] [.name "d", .name "d"] none 1]

/-- A method `A.g`, a module-level `g`, and `def f(): g(); g()` — the
second `g()` call's caller is already recorded, so `visit_Call` falls
through to the suffix scan and hits `A.g`. -/
def exRepeatCall : List PyStmt :=
  [.classDef "A" [.functionDef "g" ["self"] [.passS] [] none 2] none 1,
   .functionDef "g" [] [.passS] [] none 4,
   .functionDef "f" []
     [.exprStmt (.call (.name "g") []), .exprStmt (.call (.name "g") [])] [] none 5]

/-- `class A:` with method `m` whose body holds a nested
`def h(): q()`. -/
def exNestedDef : List PyStmt :=
  [.classDef "A"
     [.functionDef "m" ["self"]
        [.functionDef "h" [] [.exprStmt (.call (.name "q") [])] [] none 3]
        [] none 2]
     none 1]

/-- A visitor state with one module-level function `g` already
recorded and `f` on the call stack (the witness state for the
exact-match behaviour of `visit_Call`). -/
def exactMatchState : VState :=
  { symbols := [("t.py::g",
      { type := some "function", file := "t.py", line := 4,
        signature := some "def g():", called_by := [], stack_levels := [0] })],
    symbol_lookup := [("g", "t.py::g")],
    current_function_stack := ["t.py::f"] }

/-- A visitor state inside a class body (the witness state for the
nested-`def` guard). -/
def inClassState : VState :=
  { current_class := some "A" }

/-- A visitor state for the decorator-append witness: the decorated
function's record is already stored, nothing else is known. -/
def decoratedState : VState :=
  { symbols := [("t.py::f",
      { type := some "function", file := "t.py", line := 1,
        signature := some "def f():", called_by := [], stack_levels := [2] })],
    symbol_lookup := [("f", "t.py::f")] }

/-- A concrete normalizer environment for witnesses: interpreter under
`/opt/py`, project at `/proj`. -/
def envW : NormEnv :=
  { cwd := "/proj", sysPath := ["/opt/py/lib/python3.12"], basePref := "/opt/py" }

/-- The normalizer built from `envW` with venv `/proj/.venv`. -/
def normW : SymbolIDNormalizer :=
  SymbolIDNormalizer.init envW "/proj" (some "/proj/.venv")

/-! ## Shared lemmas -/

theorem aget_aset_self {α : Type} (d : List (String × α)) (k : String) (v : α) :
    aget (aset d k v) k = some v := by
  induction d with
  | nil => simp [aset, aget]
  | cons hd tl ih =>
    obtain ⟨k', v'⟩ := hd
    by_cases h : k' = k
    · simp [aset, aget, h]
    · simp [aset, aget, h, ih]

theorem dropCommon_append (R T : List String) :
    dropCommon (R ++ T) R = (T, []) := by
  induction R with
  | nil =>
    cases T with
    | nil => simp [dropCommon]
    | cons a as => simp [dropCommon]
  | cons a as ih => simp [dropCommon, ih]

theorem replaceSep_eq (s : String) : replaceSep s = s := rfl

theorem processFiles_ok (l : List FileOps) : processFiles l = .ok () := by
  induction l with
  | nil => rfl
  | cons fo rest ih => simpa [processFiles] using ih

/-! ## Claim theorems -/

/-- **C4** (code bug): `ImportCallInfo._get_spec` does not restore
`sys.path` on the resolver-returned-not-found path: starting from an
empty search path, a not-found lookup leaves the project root and the
computed venv site-packages directory appended. -/
theorem c4_get_spec_leaks_sys_path_on_not_found :
    (ImportCallInfo_get_spec "/proj" none none "3.12" FindOutcome.notFound
        { path := [] }).2
      = { path := ["/proj", "/proj/.venv/lib/python3.12/site-packages"] } ∧
    ¬ ((ImportCallInfo_get_spec "/proj" none none "3.12" FindOutcome.notFound
        { path := [] }).2 = { path := [] }) := by
  constructor
  · rfl
  · decide

/-- **C6** (counterexample): for called name `get` and recorded import
`widget`, the source's matcher accepts `widget` (plain character-suffix
`endswith`), while the set the claim describes — equal or
`.get`-suffixed import strings — is empty. -/
theorem c6_counterexample_widget_matches_get :
    get_matching_imports ["widget"] "get" = ["widget"] ∧
    spec_matching_imports ["widget"] "get" = [] := by
  constructor
  · rfl
  · rfl

/-- **C3** (counterexample): extracting `@d\n@d\ndef f(): pass` gives
`f` the `called_by` list `["d", "d"]` — `extract_decorators` appends
the decorator identifier unconditionally, so the same decorator twice
produces a duplicate, falsifying "every operation that appends a caller
to `called_by` appends only if that identifier is not already
present". -/
theorem c3_counterexample_duplicate_decorator :
    (aget (parse_file cfgNone 100 exDupDecorator 1).1 "t.py::f").map SymbolInfo.called_by
      = some ["d", "d"] ∧
    ¬ List.Nodup ["d", "d"] := by
  constructor
  · rfl
  · decide

/-- **C5** (counterexample): in a file with method `A.g`, function `g`
and `def f(): g(); g()`, the second `g()` call — whose caller is
already in `g`'s `called_by` — does not stop at the exact match: it
falls through to the suffix scan and records `f` as a caller of the
unrelated method `A.g`, so `A.g.called_by` ends up `["t.py::f"]`
instead of staying empty as the claim requires. -/
theorem c5_counterexample_repeated_call_falls_through :
    (aget (parse_file cfgNone 100 exRepeatCall 6).1 "t.py::A.g").map SymbolInfo.called_by
      = some ["t.py::f"] ∧
    (aget (parse_file cfgNone 100 exRepeatCall 6).1 "t.py::A.g").map SymbolInfo.called_by
      ≠ some [] := by
  constructor
  · rfl
  · intro h
    rw [(by rfl :
      (aget (parse_file cfgNone 100 exRepeatCall 6).1 "t.py::A.g").map SymbolInfo.called_by
        = some ["t.py::f"])] at h
    exact absurd (Option.some.inj h) (by decide)

/-- **C10**: while a class context is open, `visit_FunctionDef` returns
immediately on any `FunctionDef` node, leaving the state untouched — so
a `def` nested inside a method body (reached by traversal, not as a
direct class-body child) is neither recorded nor traversed.
Concretely, parsing `class A:` with method `m` containing
`def h(): q()` yields exactly the records for `A` and `A.m`: no symbol
for `h`, and no trace of the `q()` call inside it. -/
theorem c10_nested_def_in_method_skipped :
    (∀ (cfg : VConfig) (fuel : Nat) (fname : String) (args : List String)
        (body : List PyStmt) (decorators : List PyExpr)
        (ds : Option String) (lineno : Int) (s : VState),
        s.current_class.isSome = true →
        pyVisit cfg (fuel + 1)
          (.stmt (.functionDef fname args body decorators ds lineno)) s = .ok s) ∧
    (parse_file cfgNone 100 exNestedDef 3).1 =
      [("t.py::A",
        { type := some "class", file := "t.py", line := 1, signature := none,
          docstring := none, called_by := [], stack_levels := [], decorator_list := [] }),
       ("t.py::A.m",
        { type := some "method", file := "t.py", line := 2,
          signature := some "def m(self):", docstring := none, called_by := [],
          stack_levels := [0], decorator_list := [] })] := by
  constructor
  · intro cfg fuel fname args body decorators ds lineno s h
    simp [pyVisit, h]
  · rfl

/-- Witness for `c10_nested_def_in_method_skipped`: the guard applied
inside an open class body on a concrete nested `def`. -/
theorem c10_witness :
    pyVisit cfgNone 1
      (.stmt (.functionDef "h" [] [.exprStmt (.call (.name "q") [])] [] none 3))
      inClassState = .ok inClassState :=
  c10_nested_def_in_method_skipped.1 cfgNone 0 "h" [] [.exprStmt (.call (.name "q") [])]
    [] none 3 inClassState (by rfl)

/-- **C7**: `normalize_path` is total by construction (the embedding is
a Lean function, mirroring the source's raise-free `if/elif` chain) and
routes every input to exactly one of the four namespaces: the branch
taken is characterized by the three root predicates checked in priority
order; a path whose absolutized form contains `site-packages` never
satisfies the standard-library predicate; and a path matching no root
yields the `external://` form of its absolute path. -/
theorem c7_normalize_path_partition (env : NormEnv) (n : SymbolIDNormalizer) (p : String) :
    ((n.normBranch env p = .proj ↔ n.is_in_project env (abspath env.cwd p) = true) ∧
     (n.normBranch env p = .venv ↔
        (n.is_in_project env (abspath env.cwd p) = false ∧
         n.is_in_venv env (abspath env.cwd p) = true)) ∧
     (n.normBranch env p = .stdl ↔
        (n.is_in_project env (abspath env.cwd p) = false ∧
         n.is_in_venv env (abspath env.cwd p) = false ∧
         n.is_in_stdlib env (abspath env.cwd p) = true)) ∧
     (n.normBranch env p = .ext ↔
        (n.is_in_project env (abspath env.cwd p) = false ∧
         n.is_in_venv env (abspath env.cwd p) = false ∧
         n.is_in_stdlib env (abspath env.cwd p) = false))) ∧
    (strContains (abspath env.cwd (abspath env.cwd p)) "site-packages" = true →
      n.is_in_stdlib env (abspath env.cwd p) = false) ∧
    ((n.is_in_project env (abspath env.cwd p) = false ∧
      n.is_in_venv env (abspath env.cwd p) = false ∧
      n.is_in_stdlib env (abspath env.cwd p) = false) →
      n.normalize_path env p = "external://" ++ abspath env.cwd p) := by
  refine ⟨?_, ?_, ?_⟩
  · by_cases h1 : n.is_in_project env (abspath env.cwd p) = true <;>
    by_cases h2 : n.is_in_venv env (abspath env.cwd p) = true <;>
    by_cases h3 : n.is_in_stdlib env (abspath env.cwd p) = true <;>
    simp_all [SymbolIDNormalizer.normBranch]
  · intro h
    simp only [SymbolIDNormalizer.is_in_stdlib, List.any_eq_false]
    intro sp _
    simp [h]
  · rintro ⟨h1, h2, h3⟩
    simp [SymbolIDNormalizer.normalize_path, SymbolIDNormalizer.normalize_path_abs,
      h1, h2, h3, replaceSep]

/-- Witness for `c7_normalize_path_partition`: in the concrete
environment `envW`, `/elsewhere/x.py` matches no root and normalizes to
its `external://` form, and a venv site-packages path does not satisfy
the standard-library predicate. -/
theorem c7_witness :
    (normW.is_in_project envW (abspath "/proj" "/elsewhere/x.py") = false ∧
     normW.is_in_venv envW (abspath "/proj" "/elsewhere/x.py") = false ∧
     normW.is_in_stdlib envW (abspath "/proj" "/elsewhere/x.py") = false) ∧
    normW.normalize_path envW "/elsewhere/x.py"
      = "external://" ++ abspath "/proj" "/elsewhere/x.py" ∧
    normW.is_in_stdlib envW
      (abspath "/proj" "/proj/.venv/lib/python3.12/site-packages/req/api.py") = false := by
  refine ⟨⟨by rfl, by rfl, by rfl⟩, ?_, ?_⟩
  · exact (c7_normalize_path_partition envW normW "/elsewhere/x.py").2.2 ⟨by rfl, by rfl, by rfl⟩
  · exact (c7_normalize_path_partition envW normW
      "/proj/.venv/lib/python3.12/site-packages/req/api.py").2.1 (by rfl)

/-- **C8**: `normalize_path ∘ create_symbol_id` is a pure function of
the constructor inputs, so two independently constructed normalizers
with the same project root, venv root and library search path return
byte-identical symbol ids; and for a file under the project root (whose
absolutized form is the root's components followed by a non-empty
remainder `T`) the id is the root-relative slash-joined path `T` glued
to the symbol name with `::`. -/
theorem c8_create_symbol_id_stable (env : NormEnv) (pr p sname : String)
    (vr : Option String) (R T : List String)
    (h1 : (SymbolIDNormalizer.init env pr vr).is_in_project env (abspath env.cwd p) = true)
    (h2 : normParts (splitPath (abspath env.cwd p)) = R ++ T)
    (h3 : normParts (splitPath (SymbolIDNormalizer.init env pr vr).project_root) = R)
    (h4 : T ≠ []) :
    (∀ n1 n2 : SymbolIDNormalizer,
        n1 = SymbolIDNormalizer.init env pr vr → n2 = SymbolIDNormalizer.init env pr vr →
        n1.create_symbol_id env p sname = n2.create_symbol_id env p sname) ∧
    (SymbolIDNormalizer.init env pr vr).create_symbol_id env p sname
      = String.intercalate "/" T ++ "::" ++ sname := by
  constructor
  · rintro n1 n2 rfl rfl
    rfl
  · have hrel : os_relpath (abspath env.cwd p)
        (SymbolIDNormalizer.init env pr vr).project_root = String.intercalate "/" T := by
      simp only [os_relpath, h2, h3, dropCommon_append]
      simp only [relJoin, List.length_nil, List.replicate_zero, List.nil_append]
      rw [if_neg h4]
    have hnorm : (SymbolIDNormalizer.init env pr vr).normalize_path env p
        = String.intercalate "/" T := by
      unfold SymbolIDNormalizer.normalize_path SymbolIDNormalizer.normalize_path_abs
      split
      · simp only [replaceSep_eq]
        exact hrel
      · next h => exact absurd h1 h
    unfold SymbolIDNormalizer.create_symbol_id
    rw [hnorm]

/-- Witness for `c8_create_symbol_id_stable`: `<project>/src/module.py`
with symbol `foo` yields `src/module.py::foo`, identically across two
instances. -/
theorem c8_witness :
    (∀ n1 n2 : SymbolIDNormalizer,
        n1 = SymbolIDNormalizer.init envW "/proj" (some "/proj/.venv") →
        n2 = SymbolIDNormalizer.init envW "/proj" (some "/proj/.venv") →
        n1.create_symbol_id envW "/proj/src/module.py" "foo"
          = n2.create_symbol_id envW "/proj/src/module.py" "foo") ∧
    (SymbolIDNormalizer.init envW "/proj" (some "/proj/.venv")).create_symbol_id
        envW "/proj/src/module.py" "foo"
      = String.intercalate "/" ["src", "module.py"] ++ "::" ++ "foo" :=
  c8_create_symbol_id_stable envW "/proj" "/proj/src/module.py" "foo"
    (some "/proj/.venv") ["proj"] ["src", "module.py"]
    (by rfl) (by rfl) (by rfl) (by decide)

/-- **C2**: each linking step leaves the pending call's identifier and
its placeholder's `called_by` (and line) untouched, and sets the
placeholder's type to exactly the kind `try_get_symbol_type` returns for
the identifier, with `"function"` substituted when that is `None` — so
the type is never left unset; across the whole pass this holds for
every pending call; and the placeholder that `call_info_from_import`
creates during extraction indeed starts with kind unset and line `-1`. -/
theorem c2_linker_finalizes_placeholder_type :
    (∀ (env : IntrospectEnv) (cwd : String) (st : LinkState) (pc : PendingLink),
        (linkStep env cwd st pc).2.called_symbol_id = pc.called_symbol_id ∧
        (linkStep env cwd st pc).2.info.called_by = pc.info.called_by ∧
        (linkStep env cwd st pc).2.info.line = pc.info.line ∧
        (linkStep env cwd st pc).2.info.type =
          some (((linkSpecSel env st pc).1.try_get_symbol_type env cwd
              pc.called_symbol_id).1.getD "function") ∧
        (linkStep env cwd st pc).2.info.type ≠ none) ∧
    (∀ (env : IntrospectEnv) (cwd : String) (st : LinkState) (pcs : List PendingLink),
        List.Forall₂
          (fun pc pc' =>
            pc'.called_symbol_id = pc.called_symbol_id ∧
            pc'.info.called_by = pc.info.called_by ∧
            pc'.info.type ≠ none)
          pcs (linkAll env cwd st pcs).2) ∧
    (∀ (called cf : String) (sp : ModuleSpecW) (rel sid : String) (s : VState),
        aget s.import_symbols sid = none →
        aget (call_info_from_import called (some cf) sp rel sid s).import_symbols sid =
          some { type := none, file := rel, line := -1, called_by := [cf],
                 stack_levels := [s.current_function_stack.length] }) := by
  have step : ∀ (env : IntrospectEnv) (cwd : String) (st : LinkState) (pc : PendingLink),
      (linkStep env cwd st pc).2.called_symbol_id = pc.called_symbol_id ∧
      (linkStep env cwd st pc).2.info.called_by = pc.info.called_by ∧
      (linkStep env cwd st pc).2.info.line = pc.info.line ∧
      (linkStep env cwd st pc).2.info.type =
        some (((linkSpecSel env st pc).1.try_get_symbol_type env cwd
            pc.called_symbol_id).1.getD "function") ∧
      (linkStep env cwd st pc).2.info.type ≠ none := by
    intro env cwd st pc
    refine ⟨rfl, rfl, rfl, rfl, ?_⟩
    intro h
    exact Option.noConfusion h
  refine ⟨step, ?_, ?_⟩
  · intro env cwd st pcs
    induction pcs generalizing st with
    | nil => exact List.Forall₂.nil
    | cons pc rest ih =>
        show List.Forall₂ _ (pc :: rest)
          ((linkStep env cwd st pc).2 :: (linkAll env cwd (linkStep env cwd st pc).1 rest).2)
        exact List.Forall₂.cons
          ⟨(step env cwd st pc).1, (step env cwd st pc).2.1, (step env cwd st pc).2.2.2.2⟩
          (ih ((linkStep env cwd st pc).1))
  · intro called cf sp rel sid s hnone
    unfold call_info_from_import
    rw [hnone]
    simp only [aget_aset_self, addLevel, List.not_mem_nil, if_false]
    split <;> simp [aget_aset_self, addLevel]

/-- Witness for `c2_linker_finalizes_placeholder_type`: the placeholder
created from an empty visitor state for caller `a.py::f` has kind unset
and line `-1`. -/
theorem c2_witness :
    aget (call_info_from_import "bar" (some "a.py::f")
        { spec := { name := "mod", origin := some "/site/mod.py" } }
        "mod.py" "mod.py::bar" {}).import_symbols "mod.py::bar" =
      some { type := none, file := "mod.py", line := -1, called_by := ["a.py::f"],
             stack_levels := [0] } :=
  c2_linker_finalizes_placeholder_type.2.2 "bar" "a.py::f"
    { spec := { name := "mod", origin := some "/site/mod.py" } }
    "mod.py" "mod.py::bar" {} (by rfl)

/-- **C9**: `build_index` always returns a boolean and never lets an
exception escape (its result is always `.ok`); failures inside the
per-file blocks are swallowed by the inner handler, so with the
store-wide phases healthy the build returns `True` no matter how many
files fail; a failure in the linking phase (or any other phase under
the outer handler) yields `.ok False`, not an exception; and the
constructor raises exactly when the store-connectivity probe fails,
before any index write. -/
theorem c9_build_index_returns_bool :
    (∀ env : BuildEnv, ∃ b, build_index env = .ok b) ∧
    (∀ env : BuildEnv,
        env.clearOk = true → env.schemaOk = true → env.linkOk = true →
        (env.run_clustering = true → env.clusterOk = true) → env.metadataOk = true →
        build_index env = .ok true) ∧
    (∀ env : BuildEnv,
        env.clearOk = true → env.schemaOk = true → env.linkOk = false →
        build_index env = .ok false) ∧
    (builderInit false = .error .exc ∧ builderInit true = .ok ()) := by
  refine ⟨?_, ?_, ?_, by rfl, by rfl⟩
  · intro env
    unfold build_index
    cases build_body env with
    | ok u => exact ⟨true, rfl⟩
    | error e => exact ⟨false, rfl⟩
  · intro env h1 h2 h3 h4 h5
    have hbody : build_body env = .ok () := by
      unfold build_body
      rw [processFiles_ok]
      cases hrc : env.run_clustering with
      | true => simp [opE, h1, h2, h3, h4 hrc, h5, hrc, Bind.bind, Except.bind, Pure.pure, Except.pure]
      | false => simp [opE, h1, h2, h3, h5, hrc, Bind.bind, Except.bind, Pure.pure, Except.pure]
    unfold build_index
    rw [hbody]
  · intro env h1 h2 h3
    have hbody : build_body env = .error .exc := by
      unfold build_body
      rw [processFiles_ok]
      simp [opE, h1, h2, h3, Bind.bind, Except.bind]
    unfold build_index
    rw [hbody]

/-- Witness for `c9_build_index_returns_bool`: an all-healthy
environment containing one file whose parse raises still builds
successfully; the same environment with a failing linking phase yields
`False`; a failed connectivity probe raises from the constructor. -/
theorem c9_witness :
    build_index
      { clearOk := true, schemaOk := true,
        files := [{ readOk := true, parseOk := false, addFileOk := true,
                    addSymbolsOk := true }],
        linkOk := true, run_clustering := false, clusterOk := false,
        metadataOk := true } = .ok true ∧
    build_index
      { clearOk := true, schemaOk := true, files := [],
        linkOk := false, run_clustering := true, clusterOk := true,
        metadataOk := true } = .ok false ∧
    builderInit false = .error .exc :=
  ⟨c9_build_index_returns_bool.2.1
      { clearOk := true, schemaOk := true,
        files := [{ readOk := true, parseOk := false, addFileOk := true,
                    addSymbolsOk := true }],
        linkOk := true, run_clustering := false, clusterOk := false,
        metadataOk := true }
      rfl rfl rfl (fun h => Bool.noConfusion h) rfl,
   c9_build_index_returns_bool.2.2.1
      { clearOk := true, schemaOk := true, files := [],
        linkOk := false, run_clustering := true, clusterOk := true,
        metadataOk := true }
      rfl rfl rfl,
   c9_build_index_returns_bool.2.2.2.1⟩

/-- **C3** (amended): the call-recording sites guard the append —
`appendCallerIfAbsent` preserves duplicate-freeness — but
`extract_decorators` appends the decorator identifier to `called_by`
unconditionally (shown here on a one-decorator list: the result's
`called_by` is the old list plus the identifier, with no membership
check), so duplicate identical decorators produce duplicate entries. -/
theorem c3_amended_guarded_appends_except_decorators :
    (∀ (cb : List String) (c : String),
        List.Nodup cb → List.Nodup (appendCallerIfAbsent cb c)) ∧
    (∀ (cfg : VConfig) (dec : PyExpr) (sid : String) (s : VState) (si : SymbolInfo),
        get_matching_imports s.imports (try_get_func_name_from_expr dec) = [] →
        aget s.import_call_info_lookup (try_get_func_name_from_expr dec) = none →
        aget s.symbol_lookup (try_get_func_name_from_expr dec) = none →
        aget s.symbols sid = some si →
        (extract_decorators cfg [dec] sid s).toOption.map
            (fun s' => (aget s'.symbols sid).map SymbolInfo.called_by)
          = some (some (si.called_by ++ [try_get_func_name_from_expr dec]))) := by
  constructor
  · intro cb c h
    unfold appendCallerIfAbsent
    split
    · exact h
    · next hmem =>
        simp [List.nodup_append, h, List.disjoint_singleton, hmem]
  · intro cfg dec sid s si h1 h2 h3 h4
    unfold extract_decorators
    simp only [List.foldlM_cons, List.foldlM_nil]
    simp only [h1, h2, h3, h4, ne_eq, not_true_eq_false, if_false, ite_false, Bind.bind,
      Except.bind, Pure.pure, Except.pure, VState.setSym, Except.toOption, aget_aset_self,
      Option.map_some]
    simp [aget_aset_self]

/-- Witness for `c3_amended_guarded_appends_except_decorators`: the
guarded append keeps a singleton duplicate-free, and decorating the
stored `f` with `@d` appends `"d"` to its empty `called_by`
unconditionally. -/
theorem c3_amended_witness :
    List.Nodup (appendCallerIfAbsent ["a.py::f"] "a.py::f") ∧
    (extract_decorators cfgNone [.name "d"] "t.py::f" decoratedState).toOption.map
        (fun s' => (aget s'.symbols "t.py::f").map SymbolInfo.called_by)
      = some (some ([] ++ ["d"])) :=
  ⟨c3_amended_guarded_appends_except_decorators.1 ["a.py::f"] "a.py::f" (by decide),
   c3_amended_guarded_appends_except_decorators.2 cfgNone (.name "d") "t.py::f"
     decoratedState
     { type := some "function", file := "t.py", line := 1, signature := some "def f():",
       called_by := [], stack_levels := [2] }
     (by rfl) (by rfl) (by rfl) (by rfl)⟩

/-- **C5** (amended): on an exact symbol-table hit whose record is a
function or method and whose `called_by` does not yet contain the
caller, `_visit_call` records the depth, appends the caller and stops —
returning the state with exactly that one record updated.  (When the
caller is already present, the `return` inside the membership guard is
skipped and control falls through to the suffix scan and import-call
resolution, as the recorded counterexample shows.) -/
theorem c5_amended_exact_hit_appends_and_stops (cfg : VConfig) (s : VState)
    (c caller sid : String) (si : SymbolInfo)
    (hstack : s.current_function_stack.getLast? = some caller)
    (hlook : aget s.symbol_lookup c = some sid)
    (hsym : aget s.symbols sid = some si)
    (hty : isFuncOrMethod si.type = true)
    (habs : caller ∉ si.called_by) :
    visitCallCore cfg (.name c) s =
      s.setSym sid
        { si with
          stack_levels := addLevel si.stack_levels s.current_function_stack.length,
          called_by := si.called_by ++ [caller] } := by
  unfold visitCallCore
  simp only [hstack, hlook, hsym, hty, if_true]
  rw [if_neg]
  exact habs

/-- Witness for `c5_amended_exact_hit_appends_and_stops`: a first
`g()` call from `f` in the concrete state updates only `g`'s record. -/
theorem c5_amended_witness :
    visitCallCore cfgNone (.name "g") exactMatchState =
      exactMatchState.setSym "t.py::g"
        { type := some "function", file := "t.py", line := 4,
          signature := some "def g():", called_by := [] ++ ["t.py::f"],
          stack_levels := addLevel [0] 1 } :=
  c5_amended_exact_hit_appends_and_stops cfgNone exactMatchState "g" "t.py::f" "t.py::g"
    { type := some "function", file := "t.py", line := 4,
      signature := some "def g():", called_by := [], stack_levels := [0] }
    (by rfl) (by rfl) (by rfl) (by rfl) (by decide)

/-- **C6** (amended): membership in the computed matching-import list
is plain character-suffix matching — an import string matches when it
ends with the called name's characters (equality and `.name` suffixes
are special cases), plus, for a dotted called name, when it ends with
`.` followed by the last dot-component; no dot separator is required
before the suffix. -/
theorem c6_amended_plain_suffix_match (imports : List String) (called_function i : String) :
    i ∈ get_matching_imports imports called_function ↔
      i ∈ imports ∧
        (pyEndsWith i called_function = true ∨
          (strContains called_function "." = true ∧
           pyEndsWith i ("." ++ (pySplitOn called_function ".").getLastD "") = true)) := by
  simp [get_matching_imports, List.mem_filter, Bool.or_eq_true, Bool.and_eq_true]
